import Mathlib

/-!
Verification of the ID3v2 structural codec (node-taglib-sharp-memory).

The development shallowly embeds the two source files of the repository,
`src/id3v2/footer.ts` and `src/id3v2/id3v2Tag.ts`, as executable Lean
definitions.  Byte buffers (`ByteVector`) are modelled as `List Nat` with
entries below 256; strings stay `String`; JavaScript exceptions become
`Except` results.  External collaborators that live outside the two files
(SyncData, HeaderFlags, Id3v2TagSettings, the frame classes) are modelled
from the specification where the spec describes them; each such definition
carries a doc comment saying so.
-/

namespace Id3v2

/-- Modelled from the spec: `Id3v2TagSettings.footerSize` (the file is not in
the sources); the footer is a fixed 10-byte trailing structure. -/
def footerSize : Nat := 10

/-- Modelled from the spec: `Id3v2TagSettings.headerSize`; the header is a
fixed 10-byte leading structure. -/
def headerSize : Nat := 10

/-- Modelled from the spec: `Id3v2TagSettings.defaultVersion` (the file is not
in the sources); the library default ID3v2 version, 3, matching the sibling
static `Id3v2Tag._defaultVersion = 3` in `id3v2Tag.ts`. -/
def defaultVersion : Nat := 3

/-- Modelled from the spec: `SyncData.toUint` treats each of the four input
bytes as a 7-bit group and concatenates the 4 x 7 = 28 significant bits
big-endian.  Callers in `footer.ts` invoke it only after checking that every
byte is below 128, so the FormatError branch is unreachable there and the
function is modelled total. -/
def syncToUint (b : List Nat) : Nat :=
  b.getD 0 0 * 2 ^ 21 + b.getD 1 0 * 2 ^ 14 + b.getD 2 0 * 2 ^ 7 + b.getD 3 0

/-- Modelled from the spec: `SyncData.fromUint` splits the low 28 bits of the
value into four 7-bit groups, most significant first, each emitted as one
byte with the top bit zero (values beyond 28 bits are truncated). -/
def syncFromUint (v : Nat) : List Nat :=
  [v / 2 ^ 21 % 128, v / 2 ^ 14 % 128, v / 2 ^ 7 % 128, v % 128]

/-- The `"3DI"` footer file identifier, as ASCII bytes (`footer.ts` line 9). -/
def footerFileIdentifier : List Nat := [51, 68, 73]

/-- Errors raised by the footer structure code. -/
inductive FooterError where
  | corruptFile
  | versionUnsupported
  deriving DecidableEq

/-- The persistent fields of `Footer` (`footer.ts` lines 10-13).
`majorVersionRaw` is the private `_majorVersion` backing field; the public
getter is `Footer.majorVersion` below. -/
structure Footer where
  majorVersionRaw : Nat
  revisionNumber : Nat
  flags : Nat
  tagSize : Nat
  deriving DecidableEq

/-- The `majorVersion` getter (`footer.ts` lines 96-100): a raw value of 0
falls back to the settings default. -/
def Footer.majorVersion (f : Footer) : Nat :=
  if f.majorVersionRaw = 0 then defaultVersion else f.majorVersionRaw

/-- `Footer.fromData` (`footer.ts` lines 21-54).  `data.get(i)` is modelled by
`getD i 0`; indices below 10 are in bounds once the length guard has passed.
`data.startsWith(fileIdentifier)` is modelled as equality of the first three
bytes. -/
def Footer.fromData (data : List Nat) : Except FooterError Footer :=
  if data.length < footerSize then .error .corruptFile
  else if data.take 3 ≠ footerFileIdentifier then .error .corruptFile
  else if data.getD 3 0 = 2 ∧ data.getD 5 0 &&& 127 > 0 then .error .corruptFile
  else if data.getD 3 0 = 3 ∧ data.getD 5 0 &&& 15 > 0 then .error .corruptFile
  else if data.getD 3 0 = 4 ∧ data.getD 5 0 &&& 7 > 0 then .error .corruptFile
  else if (List.range' 6 4).any (fun i => decide (data.getD i 0 ≥ 128)) then
    .error .corruptFile
  else .ok ⟨data.getD 3 0, data.getD 4 0, data.getD 5 0, syncToUint ((data.drop 6).take 4)⟩

/-- The `majorVersion` setter (`footer.ts` lines 108-113): only 4 is accepted;
any other value raises before the backing field is assigned, so on the error
branch the footer is unchanged. -/
def Footer.setMajorVersion (f : Footer) (value : Nat) : Except FooterError Footer :=
  if value ≠ 4 then .error .versionUnsupported
  else .ok { f with majorVersionRaw := value }

/-- `Footer.render` (`footer.ts` lines 149-157): identifier, then the three
property getters, then the sync-safe size. -/
def Footer.render (f : Footer) : List Nat :=
  footerFileIdentifier ++ [f.majorVersion, f.revisionNumber, f.flags] ++ syncFromUint f.tagSize

/-- The failure condition of claim C6, written from the words of the spec:
too short, wrong identifier, a size byte at offsets 6..9 with the top bit
set, or a flag bit illegal for the declared major version. -/
def footerCorruptSpec (data : List Nat) : Prop :=
  data.length < 10 ∨
  data.take 3 ≠ footerFileIdentifier ∨
  (∃ i, 6 ≤ i ∧ i < 10 ∧ data.getD i 0 ≥ 128) ∨
  (data.getD 3 0 = 2 ∧ data.getD 5 0 &&& 127 > 0) ∨
  (data.getD 3 0 = 3 ∧ data.getD 5 0 &&& 15 > 0) ∨
  (data.getD 3 0 = 4 ∧ data.getD 5 0 &&& 7 > 0)

instance (data : List Nat) : Decidable (footerCorruptSpec data) := by
  unfold footerCorruptSpec
  have : Decidable (∃ i, 6 ≤ i ∧ i < 10 ∧ data.getD i 0 ≥ 128) := by
    refine decidable_of_iff ((List.range' 6 4).any (fun i => decide (data.getD i 0 ≥ 128)) = true) ?_
    simp [List.any_eq_true, List.mem_range']
    constructor
    · rintro ⟨i, ⟨k, hk, rfl⟩, h⟩
      exact ⟨6 + k, by omega, by omega, h⟩
    · rintro ⟨i, h6, h10, h⟩
      exact ⟨i, ⟨i - 6, by omega, by omega⟩, h⟩
  exact inferInstance

/-- Legal flag combinations for a declared version, as checked by
`Footer.fromData`. -/
def legalFooterFlags (version flags : Nat) : Prop :=
  (version = 2 → flags &&& 127 = 0) ∧
  (version = 3 → flags &&& 15 = 0) ∧
  (version = 4 → flags &&& 7 = 0)

lemma range64_any_iff (data : List Nat) :
    (List.range' 6 4).any (fun i => decide (data.getD i 0 ≥ 128)) = true ↔
    ∃ i, 6 ≤ i ∧ i < 10 ∧ data.getD i 0 ≥ 128 := by
  show ([6, 7, 8, 9].any fun i => decide (data.getD i 0 ≥ 128)) = true ↔ _
  simp only [List.any_cons, List.any_nil, Bool.or_eq_true, decide_eq_true_eq, Bool.false_eq_true,
    or_false]
  constructor
  · rintro (h | h | h | h)
    · exact ⟨6, by omega, by omega, h⟩
    · exact ⟨7, by omega, by omega, h⟩
    · exact ⟨8, by omega, by omega, h⟩
    · exact ⟨9, by omega, by omega, h⟩
  · rintro ⟨i, h6, h10, h⟩
    interval_cases i <;> tauto

/-- Sync-safe round trip on the value side: decoding the four emitted 7-bit
groups gives back any value below 2^28. -/
lemma syncToUint_syncFromUint (v : Nat) (h : v < 2 ^ 28) :
    syncToUint (syncFromUint v) = v := by
  simp only [syncToUint, syncFromUint, List.getD_cons_zero, List.getD_cons_succ]
  omega

/-- Claim C6: `Footer.fromData` fails (with `CorruptFileError`) exactly when
the input is shorter than 10 bytes, does not start with `"3DI"`, has a size
byte at offsets 6..9 with value at least 128, or has a flag bit illegal for
the declared major version (v2: bits 0-6, v3: low 4 bits, v4: low 3 bits);
on success the tag size is the sync-safe decoding of bytes 6..9. -/
theorem footer_fromData_corrupt_iff (data : List Nat) :
    ((Footer.fromData data).isOk = false ↔ footerCorruptSpec data) ∧
    (∀ f, Footer.fromData data = .ok f →
      f.tagSize = syncToUint ((data.drop 6).take 4)) := by
  unfold Footer.fromData footerCorruptSpec
  by_cases h1 : data.length < footerSize
  · rw [if_pos h1]
    exact ⟨⟨fun _ => Or.inl (by simpa [footerSize] using h1), fun _ => rfl⟩, by simp⟩
  rw [if_neg h1]
  by_cases h2 : data.take 3 ≠ footerFileIdentifier
  · rw [if_pos h2]
    exact ⟨⟨fun _ => Or.inr (Or.inl h2), fun _ => rfl⟩, by simp⟩
  rw [if_neg h2]
  by_cases h3 : data.getD 3 0 = 2 ∧ data.getD 5 0 &&& 127 > 0
  · rw [if_pos h3]
    exact ⟨⟨fun _ => Or.inr (Or.inr (Or.inr (Or.inl h3))), fun _ => rfl⟩, by simp⟩
  rw [if_neg h3]
  by_cases h4 : data.getD 3 0 = 3 ∧ data.getD 5 0 &&& 15 > 0
  · rw [if_pos h4]
    exact ⟨⟨fun _ => Or.inr (Or.inr (Or.inr (Or.inr (Or.inl h4)))), fun _ => rfl⟩, by simp⟩
  rw [if_neg h4]
  by_cases h5 : data.getD 3 0 = 4 ∧ data.getD 5 0 &&& 7 > 0
  · rw [if_pos h5]
    exact ⟨⟨fun _ => Or.inr (Or.inr (Or.inr (Or.inr (Or.inr h5)))), fun _ => rfl⟩, by simp⟩
  rw [if_neg h5]
  by_cases h6 : ((List.range' 6 4).any fun i => decide (data.getD i 0 ≥ 128)) = true
  · rw [if_pos h6]
    exact ⟨⟨fun _ => Or.inr (Or.inr (Or.inl ((range64_any_iff data).mp h6))), fun _ => rfl⟩,
      by simp⟩
  rw [if_neg h6]
  have hno : ¬ (data.length < 10 ∨ data.take 3 ≠ footerFileIdentifier ∨
      (∃ i, 6 ≤ i ∧ i < 10 ∧ data.getD i 0 ≥ 128) ∨
      (data.getD 3 0 = 2 ∧ data.getD 5 0 &&& 127 > 0) ∨
      (data.getD 3 0 = 3 ∧ data.getD 5 0 &&& 15 > 0) ∨
      (data.getD 3 0 = 4 ∧ data.getD 5 0 &&& 7 > 0)) := by
    rintro (h | h | h | h | h | h)
    · exact h1 (by simpa [footerSize] using h)
    · exact h2 h
    · exact h6 ((range64_any_iff data).mpr h)
    · exact h3 h
    · exact h4 h
    · exact h5 h
  refine ⟨⟨fun hfalse => ?_, fun hd => absurd hd hno⟩, ?_⟩
  · exact absurd hfalse (by simp [Except.isOk, Except.toBool])
  · intro f hf
    simp only [Except.ok.injEq] at hf
    subst hf
    rfl

/-- Concrete witness for claim C6: a legal version-4 footer with the
FooterPresent flag and size bytes `[0,0,2,1]` parses with tag size 257. -/
def c6data : List Nat := [51, 68, 73, 4, 0, 16, 0, 0, 2, 1]

theorem footer_fromData_corrupt_iff_witness :
    ¬ footerCorruptSpec c6data ∧
    Footer.fromData c6data = .ok ⟨4, 0, 16, 257⟩ ∧
    (257 : Nat) = syncToUint ((c6data.drop 6).take 4) := by
  refine ⟨by decide, by rfl, ?_⟩
  have h := (footer_fromData_corrupt_iff c6data).2 ⟨4, 0, 16, 257⟩ (by rfl)
  simpa using h

/-- Counterexample input for claim C7: a footer declaring major version 3
with no flags set. -/
def c7data : List Nat := [51, 68, 73, 3, 0, 0, 0, 0, 0, 5]

/-- Second accepted-version example used by the amended claim C7: a footer
declaring major version 2. -/
def c7dataV2 : List Nat := [51, 68, 73, 2, 0, 0, 0, 0, 0, 5]

/-- Claim C7 counterexample: `Footer.fromData` successfully constructs a
footer whose declared major version is 3, not 4, refuting the claim that
every footer built by `fromData` declares version 4. -/
theorem footer_fromData_accepts_version3 :
    Footer.fromData c7data = .ok ⟨3, 0, 0, 5⟩ ∧
    Footer.majorVersion ⟨3, 0, 0, 5⟩ = 3 :=
  ⟨rfl, rfl⟩

/-- Claim C7 (amended): `fromData` accepts any declared major version whose
flag bits pass the version-specific checks (for example 2 or 3 with no
flags); only the `majorVersion` setter is restricted to 4 — assigning any
other value fails, and on the error branch the stored version is unchanged
(the setter raises before assigning), while assigning 4 succeeds. -/
theorem footer_majorVersion_setter_only4 :
    Footer.fromData c7dataV2 = .ok ⟨2, 0, 0, 5⟩ ∧
    (∀ (f : Footer) (v : Nat), v ≠ 4 →
      f.setMajorVersion v = .error .versionUnsupported) ∧
    (∀ f : Footer, f.setMajorVersion 4 = .ok { f with majorVersionRaw := 4 }) := by
  refine ⟨by rfl, ?_, ?_⟩
  · intro f v hv
    simp [Footer.setMajorVersion, hv]
  · intro f
    simp [Footer.setMajorVersion]

theorem footer_majorVersion_setter_only4_witness :
    Footer.setMajorVersion ⟨4, 0, 16, 257⟩ 3 = .error .versionUnsupported :=
  footer_majorVersion_setter_only4.2.1 ⟨4, 0, 16, 257⟩ 3 (by decide)

/-- Claim C8: for every footer with a legal combination of major version
(2..4), flags legal for that version, byte-sized revision and flags, and a
28-bit tag size, `render` is exactly 10 bytes and `fromData` of the rendered
bytes reconstructs the footer exactly (all four stored fields). -/
theorem footer_roundTrip (f : Footer)
    (hmv : f.majorVersionRaw = 2 ∨ f.majorVersionRaw = 3 ∨ f.majorVersionRaw = 4)
    (hflags : legalFooterFlags f.majorVersionRaw f.flags)
    (hrev : f.revisionNumber ≤ 255) (hfl : f.flags ≤ 255)
    (hts : f.tagSize < 2 ^ 28) :
    f.render.length = 10 ∧ Footer.fromData f.render = .ok f := by
  obtain ⟨mv, rev, fl, ts⟩ := f
  obtain ⟨h2, h3, h4⟩ := hflags
  simp only at h2 h3 h4 hmv hrev hfl hts
  have hmv0 : mv ≠ 0 := by rcases hmv with h | h | h <;> omega
  have hget : Footer.majorVersion ⟨mv, rev, fl, ts⟩ = mv := by
    simp [Footer.majorVersion, hmv0]
  have hrender : Footer.render ⟨mv, rev, fl, ts⟩ =
      [51, 68, 73, mv, rev, fl, ts / 2 ^ 21 % 128, ts / 2 ^ 14 % 128, ts / 2 ^ 7 % 128,
        ts % 128] := by
    simp [Footer.render, hget, syncFromUint, footerFileIdentifier]
  rw [hrender]
  constructor
  · rfl
  unfold Footer.fromData
  rw [if_neg (by simp [footerSize])]
  rw [if_neg (by simp [footerFileIdentifier])]
  have hc2 : ¬ (([51, 68, 73, mv, rev, fl, ts / 2 ^ 21 % 128, ts / 2 ^ 14 % 128,
      ts / 2 ^ 7 % 128, ts % 128] : List Nat).getD 3 0 = 2 ∧
      ([51, 68, 73, mv, rev, fl, ts / 2 ^ 21 % 128, ts / 2 ^ 14 % 128, ts / 2 ^ 7 % 128,
        ts % 128] : List Nat).getD 5 0 &&& 127 > 0) := by
    simp only [List.getD_cons_zero, List.getD_cons_succ]
    rintro ⟨rfl, hgt⟩
    rw [h2 rfl] at hgt
    omega
  rw [if_neg hc2]
  have hc3 : ¬ (([51, 68, 73, mv, rev, fl, ts / 2 ^ 21 % 128, ts / 2 ^ 14 % 128,
      ts / 2 ^ 7 % 128, ts % 128] : List Nat).getD 3 0 = 3 ∧
      ([51, 68, 73, mv, rev, fl, ts / 2 ^ 21 % 128, ts / 2 ^ 14 % 128, ts / 2 ^ 7 % 128,
        ts % 128] : List Nat).getD 5 0 &&& 15 > 0) := by
    simp only [List.getD_cons_zero, List.getD_cons_succ]
    rintro ⟨rfl, hgt⟩
    rw [h3 rfl] at hgt
    omega
  rw [if_neg hc3]
  have hc4 : ¬ (([51, 68, 73, mv, rev, fl, ts / 2 ^ 21 % 128, ts / 2 ^ 14 % 128,
      ts / 2 ^ 7 % 128, ts % 128] : List Nat).getD 3 0 = 4 ∧
      ([51, 68, 73, mv, rev, fl, ts / 2 ^ 21 % 128, ts / 2 ^ 14 % 128, ts / 2 ^ 7 % 128,
        ts % 128] : List Nat).getD 5 0 &&& 7 > 0) := by
    simp only [List.getD_cons_zero, List.getD_cons_succ]
    rintro ⟨rfl, hgt⟩
    rw [h4 rfl] at hgt
    omega
  rw [if_neg hc4]
  have hbytes : ¬ ((List.range' 6 4).any fun i =>
      decide (([51, 68, 73, mv, rev, fl, ts / 2 ^ 21 % 128, ts / 2 ^ 14 % 128,
        ts / 2 ^ 7 % 128, ts % 128] : List Nat).getD i 0 ≥ 128)) = true := by
    have h4' : (List.range' 6 4) = [6, 7, 8, 9] := rfl
    rw [h4']
    simp only [List.any_cons, List.any_nil, Bool.or_eq_true, decide_eq_true_eq,
      Bool.false_eq_true, or_false, List.getD_cons_zero, List.getD_cons_succ]
    push_neg
    refine ⟨?_, ?_, ?_, ?_⟩ <;> exact Nat.mod_lt _ (by norm_num)
  rw [if_neg hbytes]
  simp only [List.getD_cons_zero, List.getD_cons_succ, Except.ok.injEq, Footer.mk.injEq]
  refine ⟨trivial, trivial, trivial, ?_⟩
  show syncToUint (((_ : List Nat).drop 6).take 4) = ts
  simp only [List.drop_succ_cons, List.drop_zero, List.take_succ_cons, List.take_zero,
    syncToUint, List.getD_cons_zero, List.getD_cons_succ]
  omega

theorem footer_roundTrip_witness :
    (Footer.render ⟨4, 0, 16, 257⟩).length = 10 ∧
    Footer.fromData (Footer.render ⟨4, 0, 16, 257⟩) = .ok ⟨4, 0, 16, 257⟩ :=
  footer_roundTrip ⟨4, 0, 16, 257⟩ (by decide)
    (by exact ⟨fun h => absurd h (by decide), fun h => absurd h (by decide), fun _ => by decide⟩)
    (by decide) (by decide) (by decide)

/-! The tag container, `id3v2Tag.ts`.  Frame identifiers are 3- or
4-character ASCII codes; they are modelled as Lean strings (with
`ByteVector.equal` becoming string equality and the length guards reading
`String.length`). -/

namespace FrameTypes

/-- Frame identifier constants used by the container (`frameTypes.ts` is an
external collaborator; the constants are plain 4-character codes). -/
def TDRC : String := "TDRC"

def TYER : String := "TYER"

def TDAT : String := "TDAT"

def TIME : String := "TIME"

def COMM : String := "COMM"

def USLT : String := "USLT"

end FrameTypes

/-- The minimal frame capability set the container consumes (spec section 2):
a frame identifier, a class type, a byte size, flag bits and — for the text
frames the container reads and writes — the textual content.  `text` models
the string that `TextInformationFrame.toString()` returns; the source
assignments `frame.text = [s]` store `s` here. -/
structure Frame where
  frameId : String
  classType : Nat
  size : Nat
  flags : Nat
  text : String
  deriving DecidableEq

/-- Result of one `FrameFactory.createFrame` call, as consumed by the scan
loop (the spec, section 9, models the exception-based signalling as a result
type): `ok` carries the optional frame (`none` is the end-of-region
sentinel, `if (!frame) break`) and the updated offset; `skip` is an error
owning `isNotImplementedError` or `isCorruptFileError`; `fatal` is any other
error. -/
inductive FactoryResult where
  | ok (frame : Option Frame) (offset : Nat)
  | skip
  | fatal

/-- The locals of the scan loop in `Id3v2Tag.parse` (lines 996-1050): the
accumulated frame list plus the first-seen TDRC, TYER, TDAT and TIME frames
retained for post-processing. -/
structure ScanState where
  frames : List Frame
  tdrc : Option Frame
  tyer : Option Frame
  tdat : Option Frame
  time : Option Frame
  deriving DecidableEq

def ScanState.initial : ScanState := ⟨[], none, none, none, none⟩

/-- Lines 1028-1049 of `Id3v2Tag.parse`: append the frame, then (for header
versions other than 4) retain the first instance of each legacy date
identifier, checked in the order TDRC, TYER, TDAT, TIME. -/
def addAndCollect (majorVersion : Nat) (st : ScanState) (f : Frame) : ScanState :=
  let st1 : ScanState := { st with frames := st.frames ++ [f] }
  if majorVersion = 4 then st1
  else if st1.tdrc.isNone ∧ f.frameId = FrameTypes.TDRC then { st1 with tdrc := some f }
  else if st1.tyer.isNone ∧ f.frameId = FrameTypes.TYER then { st1 with tyer := some f }
  else if st1.tdat.isNone ∧ f.frameId = FrameTypes.TDAT then { st1 with tdat := some f }
  else if st1.time.isNone ∧ f.frameId = FrameTypes.TIME then { st1 with time := some f }
  else st1

/-- Outcome of the scan loop.  The source loop has no fuel; `hung` is
produced when the supplied fuel runs out, so a statement of the shape
`(∀ fuel, scan = hung)` says the loop never terminates. -/
inductive ScanOutcome where
  | done (st : ScanState)
  | fatal
  | hung
  deriving DecidableEq

/-- The frame scan loop of `Id3v2Tag.parse` (lines 1003-1050), with the
frame factory abstracted as a function of the current offset (the byte
buffer, file and unsynchronization arguments are fixed across the loop).
On `skip` — the catch branch for a "not implemented" or "corrupt" signal —
the source executes `continue` without updating `frameDataPosition`, so the
recursive call keeps `pos` unchanged.  A returned frame of size 0 is
discarded; a returned `undefined` frame breaks the loop. -/
def scanFrames (factory : Nat → FactoryResult) (majorVersion endPos : Nat) :
    Nat → Nat → ScanState → ScanOutcome
  | 0, _, _ => .hung
  | fuel + 1, pos, st =>
    if pos < endPos then
      match factory pos with
      | .fatal => .fatal
      | .skip => scanFrames factory majorVersion endPos fuel pos st
      | .ok none _ => .done st
      | .ok (some f) off =>
        if f.size = 0 then scanFrames factory majorVersion endPos fuel off st
        else scanFrames factory majorVersion endPos fuel off (addAndCollect majorVersion st f)
    else .done st

/-- Body of `Id3v2Tag.removeFrames` after its identifier-length guard (lines
762-766): the source iterates from the end of the array, splicing out every
frame whose id equals `ident`; on a list this keeps exactly the non-matching
frames in their original order. -/
def removeFramesImpl (ident : String) (fs : List Frame) : List Frame :=
  fs.filter (fun f => f.frameId != ident)

/-- Models the aliased mutation `tdrc.text = [tdrcText]` (line 1079) and the
collaborator text-frame stores: `tdrc` aliases the first frame with the
given id in the list (it was collected as the first such frame during the
scan, and the TDAT removal never removes a TDRC frame), so the assignment
updates the text of the first matching frame. -/
def setFirstText (ident : String) (s : String) : List Frame → List Frame
  | [] => []
  | f :: fs =>
    if f.frameId = ident then { f with text := s } :: fs
    else f :: setFirstText ident s fs

/-- The legacy date post-processing of `Id3v2Tag.parse` (lines 1052-1080).
The collected TYER frame is never consulted; the folding is keyed on the
TDRC frame, and `removeFrames(FrameTypes.TDAT)` is executed only inside the
`if (time)` branch (line 1075), before the final text assignment. -/
def datePost (frames : List Frame) (tdrc tdat time : Option Frame) : List Frame :=
  match tdrc, tdat with
  | some tdrcF, some tdatF =>
    if tdrcF.text.length ≠ 4 then frames
    else if tdatF.text.length = 4 then
      let tdrcText := tdrcF.text ++ "-" ++ tdatF.text.take 2 ++ "-" ++
        (tdatF.text.drop 2).take 2
      match time with
      | some timeF =>
        let tdrcText2 :=
          if timeF.text.length = 4 then
            tdrcText ++ "T" ++ timeF.text.take 2 ++ ":" ++ (timeF.text.drop 2).take 2
          else tdrcText
        setFirstText FrameTypes.TDRC tdrcText2 (removeFramesImpl FrameTypes.TDAT frames)
      | none => setFirstText FrameTypes.TDRC tdrcText frames
    else setFirstText FrameTypes.TDRC tdrcF.text frames
  | _, _ => frames

/-- Outcome of `Id3v2Tag.parse` as a whole. -/
inductive ParseOutcome where
  | done (frames : List Frame)
  | fatal
  | hung
  deriving DecidableEq

/-- The frame enumeration of `Id3v2Tag.parse` followed by its legacy date
post-processing, scanning the frame region `[0, endPos)`. -/
def parseTag (factory : Nat → FactoryResult) (majorVersion endPos fuel : Nat) :
    ParseOutcome :=
  match scanFrames factory majorVersion endPos fuel 0 ScanState.initial with
  | .done st => .done (datePost st.frames st.tdrc st.tdat st.time)
  | .fatal => .fatal
  | .hung => .hung

/-- The two well-formed frames of the claim C1 scenario. -/
def c1Frame1 : Frame := ⟨"TIT2", 0, 10, 0, "A"⟩

def c1Frame2 : Frame := ⟨"TALB", 0, 10, 0, "B"⟩

/-- Factory behaviour of the claim C1 scenario: a well-formed frame at
offset 0 (advancing to 10), a frame raising the "not implemented" signal at
offset 10, a well-formed frame at offset 20 (advancing to 30), and the
end-of-region sentinel elsewhere. -/
def c1Factory (pos : Nat) : FactoryResult :=
  if pos = 0 then .ok (some c1Frame1) 10
  else if pos = 10 then .skip
  else if pos = 20 then .ok (some c1Frame2) 30
  else .ok none pos

lemma c1_scan_stuck (fuel : Nat) (st : ScanState) :
    scanFrames c1Factory 3 30 fuel 10 st = .hung := by
  induction fuel with
  | zero => rfl
  | succ n ih => exact ih

/-- Claim C1 (evaluation of the code bug): with a factory yielding a
well-formed frame at offset 0, a "not implemented" signal at offset 10 and a
well-formed frame at offset 20 inside a region ending at 30, the scan never
terminates — the catch branch continues without advancing the offset, so
the factory is re-invoked at offset 10 forever and no amount of fuel
completes the parse, let alone yields the two well-formed frames. -/
theorem parse_skip_never_advances :
    ∀ fuel, parseTag c1Factory 3 30 fuel = .hung := by
  intro fuel
  unfold parseTag
  cases fuel with
  | zero => rfl
  | succ n =>
    rw [show scanFrames c1Factory 3 30 (n + 1) 0 ScanState.initial =
      scanFrames c1Factory 3 30 n 10 (addAndCollect 3 ScanState.initial c1Frame1) from rfl]
    rw [c1_scan_stuck]

/-- Factory of the claim C2 counterexample: a TYER year frame "1999", a TDAT
date frame "1225" and a TDRC recording-time frame "1999", with no TIME
frame. -/
def c2Factory (pos : Nat) : FactoryResult :=
  if pos = 0 then .ok (some ⟨FrameTypes.TYER, 0, 10, 0, "1999"⟩) 10
  else if pos = 10 then .ok (some ⟨FrameTypes.TDAT, 0, 10, 0, "1225"⟩) 20
  else if pos = 20 then .ok (some ⟨FrameTypes.TDRC, 0, 10, 0, "1999"⟩) 30
  else .ok none pos

/-- Claim C2 counterexample: parsing a version-3 tag holding year frame
TYER "1999", date frame TDAT "1225" and recording-time frame TDRC "1999"
with no time frame leaves the TDAT date frame in the list (refuting the
claim that no date frame remains whether or not a time frame is present)
and leaves the TYER year frame text unchanged at "1999" (the synthesized
timestamp is written into TDRC, not into the year frame). -/
theorem parse_dateFold_counterexample :
    parseTag c2Factory 3 30 5 = .done
      [⟨FrameTypes.TYER, 0, 10, 0, "1999"⟩, ⟨FrameTypes.TDAT, 0, 10, 0, "1225"⟩,
        ⟨FrameTypes.TDRC, 0, 10, 0, "1999-12-25"⟩] ∧
    ([⟨FrameTypes.TYER, 0, 10, 0, "1999"⟩, ⟨FrameTypes.TDAT, 0, 10, 0, "1225"⟩,
        (⟨FrameTypes.TDRC, 0, 10, 0, "1999-12-25"⟩ : Frame)].any
      fun f => f.frameId == FrameTypes.TDAT) = true := by
  exact ⟨rfl, rfl⟩

/-- Factory of the amended claim C2, variant without a TIME frame: TDRC with
text `y` then TDAT with text `d`. -/
def c2aFactory (y d : String) (pos : Nat) : FactoryResult :=
  if pos = 0 then .ok (some ⟨FrameTypes.TDRC, 0, 10, 0, y⟩) 10
  else if pos = 10 then .ok (some ⟨FrameTypes.TDAT, 0, 10, 0, d⟩) 20
  else .ok none pos

/-- Factory of the amended claim C2, variant with a TIME frame carrying
`tm`. -/
def c2bFactory (y d tm : String) (pos : Nat) : FactoryResult :=
  if pos = 0 then .ok (some ⟨FrameTypes.TDRC, 0, 10, 0, y⟩) 10
  else if pos = 10 then .ok (some ⟨FrameTypes.TDAT, 0, 10, 0, d⟩) 20
  else if pos = 20 then .ok (some ⟨FrameTypes.TIME, 0, 10, 0, tm⟩) 30
  else .ok none pos

/-- Claim C2 (amended): the folding is keyed on the first TDRC
recording-time frame, not on the TYER year frame.  For a version-3 parse
whose first TDRC frame has 4-character text `y` and whose TDAT frame has
4-character text `d`, the TDRC text becomes `y-MM-DD`; the TDAT frame is
removed only when a TIME frame is also present — without one the date frame
stays in the list — and with a TIME frame of 4-character text `tm` the TDRC
text gains `THH:MM` and TDAT is removed. -/
theorem parse_dateFold_amended (y d tm : String) (hy : y.length = 4)
    (hd : d.length = 4) (htm : tm.length = 4) :
    parseTag (c2aFactory y d) 3 20 5 = .done
      [⟨FrameTypes.TDRC, 0, 10, 0, y ++ "-" ++ d.take 2 ++ "-" ++ (d.drop 2).take 2⟩,
        ⟨FrameTypes.TDAT, 0, 10, 0, d⟩] ∧
    parseTag (c2bFactory y d tm) 3 30 5 = .done
      [⟨FrameTypes.TDRC, 0, 10, 0, y ++ "-" ++ d.take 2 ++ "-" ++ (d.drop 2).take 2 ++
        "T" ++ tm.take 2 ++ ":" ++ (tm.drop 2).take 2⟩,
        ⟨FrameTypes.TIME, 0, 10, 0, tm⟩] := by
  have hy4 : ¬ (y.length ≠ 4) := by simp [hy]
  constructor
  · rw [show parseTag (c2aFactory y d) 3 20 5 =
      .done (datePost [⟨FrameTypes.TDRC, 0, 10, 0, y⟩, ⟨FrameTypes.TDAT, 0, 10, 0, d⟩]
        (some ⟨FrameTypes.TDRC, 0, 10, 0, y⟩) (some ⟨FrameTypes.TDAT, 0, 10, 0, d⟩)
        none) from rfl]
    simp only [datePost]
    rw [if_neg hy4, if_pos hd]
    rfl
  · rw [show parseTag (c2bFactory y d tm) 3 30 5 =
      .done (datePost [⟨FrameTypes.TDRC, 0, 10, 0, y⟩, ⟨FrameTypes.TDAT, 0, 10, 0, d⟩,
          ⟨FrameTypes.TIME, 0, 10, 0, tm⟩]
        (some ⟨FrameTypes.TDRC, 0, 10, 0, y⟩) (some ⟨FrameTypes.TDAT, 0, 10, 0, d⟩)
        (some ⟨FrameTypes.TIME, 0, 10, 0, tm⟩)) from rfl]
    simp only [datePost]
    rw [if_neg hy4, if_pos hd, if_pos htm]
    rfl

theorem parse_dateFold_amended_witness :
    parseTag (c2aFactory "1999" "1225") 3 20 5 = .done
      [⟨FrameTypes.TDRC, 0, 10, 0, "1999-12-25"⟩, ⟨FrameTypes.TDAT, 0, 10, 0, "1225"⟩] ∧
    parseTag (c2bFactory "1999" "1225" "0930") 3 30 5 = .done
      [⟨FrameTypes.TDRC, 0, 10, 0, "1999-12-25T09:30"⟩,
        ⟨FrameTypes.TIME, 0, 10, 0, "0930"⟩] :=
  parse_dateFold_amended "1999" "1225" "0930" rfl rfl rfl

/-- Modelled from the spec: the `HeaderFlags.Unsynchronication` bit, bit 7
of the flags byte (`headerFlags.ts` is not in the sources). -/
def flagUnsynchronized : Nat := 128

/-- Modelled from the spec: the `HeaderFlags.ExtendedHeader` bit, bit 6 of
the flags byte. -/
def flagExtendedHeader : Nat := 64

/-- Modelled from the spec: the `HeaderFlags.FooterPresent` bit, bit 4 of
the flags byte. -/
def flagFooterPresent : Nat := 16

/-- Lines 963-964 of `Id3v2Tag.parse`: the whole tag is unsynchronized when
the header major version is below 4 and the Unsynchronized flag is set. -/
def fullTagUnsync (majorVersion flags : Nat) : Bool :=
  decide (majorVersion < 4) && decide (flags &&& flagUnsynchronized > 0)

/-- Lines 966-976 of `Id3v2Tag.parse`: the guard of the block that seeks and
reads the whole tag body (`file.seek(position); data =
file.readBlock(tagSize)`).  Note the first conjunct: the block runs only
when the `data` argument is already truthy. -/
def parseMaterializes (dataPresent : Bool) (majorVersion flags tagSize : Nat)
    (pictureLazy : Bool) : Bool :=
  dataPresent &&
    (fullTagUnsync majorVersion flags || decide (tagSize < 1024) || pictureLazy ||
      decide (flags &&& flagExtendedHeader > 0))

/-- `Id3v2Tag.read` (lines 1083-1104) calls `this.parse(undefined, file,
position, style)` — the `data` argument is always absent on the read
path. -/
def readMaterializes (majorVersion flags tagSize : Nat) (pictureLazy : Bool) : Bool :=
  parseMaterializes false majorVersion flags tagSize pictureLazy

/-- Claim C3 (evaluation of the code bug): the read path never eagerly
materializes the tag body.  Even when every condition of the claim holds at
once — tag unsynchronized with version 3, tagSize 100 (below 1024),
lazy-picture style requested, extended-header flag set — the guard is false,
because it requires the `data` argument to be already present and `read`
passes `undefined`; the same conditions with data present do fire the guard,
isolating the inverted conjunct.  Consequently no materialized buffer exists
for the resynchronization step either. -/
theorem read_never_materializes :
    (∀ majorVersion flags tagSize pictureLazy,
      readMaterializes majorVersion flags tagSize pictureLazy = false) ∧
    readMaterializes 3 (flagUnsynchronized ||| flagExtendedHeader) 100 true = false ∧
    parseMaterializes true 3 (flagUnsynchronized ||| flagExtendedHeader) 100 true = true :=
  ⟨fun _ _ _ _ => rfl, rfl, rfl⟩

/-- The container state consumed by `Id3v2Tag.render` (lines 777-862):
frame list, header fields and the `_performersRole` cache. -/
structure RenderTag where
  frames : List Frame
  headerMajorVersion : Nat
  headerFlags : Nat
  headerTagSize : Nat
  performersRole : Option (List String)

/-- JavaScript runtime errors surfaced by the embedding. -/
inductive JsError where
  | typeError
  deriving DecidableEq

/-- `Id3v2Tag.render` (lines 777-862).  The prologue (lines 778-810)
declares `const ret: string[] = undefined` and never reassigns it, then
calls `this.setTextFrame(FrameTypes.TMCL, ...ret)` (line 810).  With
`_performersRole` unset the spread of the `undefined` array into that call
raises `TypeError` (spread requires an iterable).  With `_performersRole`
set, the prologue instead reaches `for (const key of map.keys)` where `map`
is a plain object whose `keys` property is `undefined` (raising
`TypeError`), or `ret.push(key)` on the `undefined` array.  Every execution
path therefore raises `TypeError` before the header-flag updates, the frame
loop, the unsynchronization step and the padding step (lines 816-861), and
before any state is mutated; the function never returns bytes. -/
def render (t : RenderTag) : Except JsError (RenderTag × List Nat) :=
  match t.performersRole with
  | some _ => .error .typeError
  | none => .error .typeError

/-- The padding computation of `Id3v2Tag.render` (lines 855-858): pad back
up to the previous on-disk size when the new tag data is smaller, else a
fixed 1024-byte block. -/
def paddingSize (tagDataLength headerTagSize : Nat) : Nat :=
  if tagDataLength < headerTagSize then headerTagSize - tagDataLength else 1024

/-- Claim C4 (evaluation of the code bug): `render` never completes on any
container — it raises `TypeError` in the TMCL prologue — so it cannot
return the same bytes twice; the raise happens before any state mutation.
This contradicts the documented contract that `render` returns the rendered
tag. -/
theorem render_always_raises (t : RenderTag) : render t = .error .typeError := by
  unfold render
  cases t.performersRole <;> rfl

/-- A no-footer tag with previous on-disk tagSize 2000 and a single frame
(the claim C5 scenario). -/
def c5Tag : RenderTag := ⟨[⟨"TIT2", 0, 500, 0, "x"⟩], 3, 0, 2000, none⟩

/-- Claim C5 (evaluation of the code bug): the padding expression itself
implements exactly the claimed rule — frame data shorter than the previous
on-disk tagSize is padded up to that size, otherwise exactly 1024 bytes are
appended — but the expression is unreachable: `render` raises `TypeError` in
the TMCL prologue before the padding step runs, as evaluated here on a
no-footer tag with previous tagSize 2000. -/
theorem render_padding_unreachable :
    render c5Tag = .error .typeError ∧
    (∀ len size : Nat, len < size → len + paddingSize len size = size) ∧
    (∀ len size : Nat, ¬ len < size → paddingSize len size = 1024) := by
  refine ⟨rfl, ?_, ?_⟩
  · intro len size h
    simp only [paddingSize, if_pos h]
    omega
  · intro len size h
    simp only [paddingSize, if_neg h]

theorem render_padding_unreachable_witness :
    (500 : Nat) + paddingSize 500 2000 = 2000 ∧ paddingSize 3000 2000 = 1024 :=
  ⟨render_padding_unreachable.2.1 500 2000 (by decide),
    render_padding_unreachable.2.2 3000 2000 (by decide)⟩

/-- Modelled from the spec: `CommentsFrame.getPreferred(tag, "",
language)` — the excluded comment-frame collaborator lookup, returning the
preferred matching comment frame; modelled as the first COMM frame of the
list. -/
def getPreferredComment (fs : List Frame) : Option Frame :=
  fs.find? (fun f => f.frameId == FrameTypes.COMM)

/-- Modelled from the spec: `UnsynchronizedLyricsFrame.getPreferred(tag, "",
language)`; modelled as the first USLT frame of the list. -/
def getPreferredLyrics (fs : List Frame) : Option Frame :=
  fs.find? (fun f => f.frameId == FrameTypes.USLT)

/-- The removal loop shared by the empty-value branches of the `comment`
(lines 301-305) and `lyrics` (lines 404-408) setters: `while (frame) {
this.removeFrame(frame); frame = getPreferred(...) }`.  `removeFrame`
(lines 743-750) splices out the first occurrence of the frame, modelled by
`List.erase`.  The source loop is unfueled; it terminates because every
iteration removes the frame the lookup just returned, so a fuel of
`fs.length` always suffices. -/
def removePreferredLoop (pref : List Frame → Option Frame) :
    Nat → List Frame → List Frame
  | 0, fs => fs
  | fuel + 1, fs =>
    match pref fs with
    | none => fs
    | some f => removePreferredLoop pref fuel (fs.erase f)

/-- The `comment` setter (lines 298-308): a falsy value removes every
preferred comment frame; for a truthy value the body ends after the `if`
without storing anything — the new text is never written. -/
def setComment (fs : List Frame) (value : String) : List Frame :=
  if value = "" then removePreferredLoop getPreferredComment fs.length fs
  else fs

/-- The `lyrics` setter (lines 401-416): a falsy value removes every
preferred lyrics frame; a truthy value fetches or creates the matching USLT
frame via `UnsynchronizedLyricsFrame.get(this, "", language, true)` —
modelled from the spec as first-USLT-frame, appending a fresh frame when
none exists — and then stores the value with `frame.text = value` (the
`textEncoding` assignment is outside this model). -/
def setLyrics (fs : List Frame) (value : String) : List Frame :=
  if value = "" then removePreferredLoop getPreferredLyrics fs.length fs
  else
    match getPreferredLyrics fs with
    | some _ => setFirstText FrameTypes.USLT value fs
    | none => fs ++ [⟨FrameTypes.USLT, 0, 0, 0, value⟩]

/-- Claim C9 counterexample: the lyrics setter DOES write a non-empty value
into a frame — on an empty tag, setting lyrics to "hello" creates a USLT
frame carrying exactly that text, so the text content of the frame list
changes, refuting the claim that neither setter ever writes the new text. -/
theorem lyrics_setter_writes :
    setLyrics [] "hello" = [⟨FrameTypes.USLT, 0, 0, 0, "hello"⟩] ∧
    setLyrics [] "hello" ≠ [] :=
  ⟨rfl, by decide⟩

lemma setFirstText_any (ident v : String) (fs : List Frame)
    (h : (fs.any fun f => f.frameId == ident) = true) :
    ((setFirstText ident v fs).any fun f => f.frameId == ident && f.text == v) = true := by
  induction fs with
  | nil => simp at h
  | cons a fs ih =>
    by_cases ha : a.frameId = ident
    · simp [setFirstText, ha]
    · simp only [List.any_cons, Bool.or_eq_true, beq_iff_eq, ha, decide_eq_true_eq,
        false_or] at h
      simp only [setFirstText, if_neg ha, List.any_cons]
      rw [ih (by simpa using h)]
      simp

lemma removePreferredLoop_clears (p : Frame → Bool) (fuel : Nat) (fs : List Frame)
    (h : fs.countP p ≤ fuel) :
    ((removePreferredLoop (fun l => l.find? p) fuel fs).all fun f => !p f) = true := by
  induction fuel generalizing fs with
  | zero =>
    have h0 : fs.countP p = 0 := Nat.le_zero.mp h
    have := List.countP_eq_zero.mp h0
    simp only [removePreferredLoop, List.all_eq_true]
    intro f hf
    simpa using this f hf
  | succ n ih =>
    cases hf : fs.find? p with
    | none =>
      simp only [removePreferredLoop, hf, List.all_eq_true]
      intro f hmem
      simpa using List.find?_eq_none.mp hf f hmem
    | some f =>
      simp only [removePreferredLoop, hf]
      apply ih
      have hmem : f ∈ fs := List.mem_of_find?_eq_some hf
      have hpf : p f = true := List.find?_some hf
      have hperm : List.Perm fs (f :: fs.erase f) := List.perm_cons_erase hmem
      have hcount : fs.countP p = (f :: fs.erase f).countP p := hperm.countP_eq p
      rw [List.countP_cons, if_pos hpf] at hcount
      omega

/-- Claim C9 (amended): for a non-empty value the comment setter writes
nothing (the whole container is unchanged — only the removal branch of the
setter is implemented), while the lyrics setter does write it — the
resulting list always contains a USLT frame whose text is the new value;
for an empty value each setter removes every matching frame (under the
spec-modelled first-match lookup). -/
theorem comment_lyrics_setters (fs : List Frame) (v : String) (hv : v ≠ "") :
    setComment fs v = fs ∧
    ((setLyrics fs v).any fun f => f.frameId == FrameTypes.USLT && f.text == v) = true ∧
    ((setComment fs "").all fun f => f.frameId != FrameTypes.COMM) = true ∧
    ((setLyrics fs "").all fun f => f.frameId != FrameTypes.USLT) = true := by
  refine ⟨by simp [setComment, hv], ?_, ?_, ?_⟩
  · unfold setLyrics
    rw [if_neg hv]
    cases hf : getPreferredLyrics fs with
    | none => simp
    | some f =>
      apply setFirstText_any
      have hmem : f ∈ fs := List.mem_of_find?_eq_some hf
      have hpf := List.find?_some hf
      exact List.any_eq_true.mpr ⟨f, hmem, hpf⟩
  · unfold setComment getPreferredComment
    rw [if_pos rfl]
    exact removePreferredLoop_clears (fun f => f.frameId == FrameTypes.COMM) fs.length fs
      (List.countP_le_length _)
  · unfold setLyrics getPreferredLyrics
    rw [if_pos rfl]
    exact removePreferredLoop_clears (fun f => f.frameId == FrameTypes.USLT) fs.length fs
      (List.countP_le_length _)

/-- A concrete mixed frame list for the claim C9 witness. -/
def c9fs : List Frame :=
  [⟨FrameTypes.COMM, 0, 5, 0, "old comment"⟩, ⟨FrameTypes.USLT, 0, 5, 0, "old lyrics"⟩]

theorem comment_lyrics_setters_witness :
    setComment c9fs "hello" = c9fs ∧
    ((setLyrics c9fs "hello").any fun f =>
      f.frameId == FrameTypes.USLT && f.text == "hello") = true ∧
    ((setComment c9fs "").all fun f => f.frameId != FrameTypes.COMM) = true ∧
    ((setLyrics c9fs "").all fun f => f.frameId != FrameTypes.USLT) = true :=
  comment_lyrics_setters c9fs "hello" (by decide)

/-- Errors raised by the frame accessor and mutator methods. -/
inductive TagError where
  | argumentOutOfRange
  | rangeError
  deriving DecidableEq

/-- `Id3v2Tag.getFramesByIdentifier` (lines 710-720): guard on the
identifier length (the guard raises before anything else happens), then
filter by class type and identifier. -/
def getFramesByIdentifier (classType : Nat) (ident : String) (fs : List Frame) :
    Except TagError (List Frame) :=
  if ident.length ≠ 4 then .error .argumentOutOfRange
  else .ok (fs.filter fun f => f.classType == classType && f.frameId == ident)

/-- `Id3v2Tag.removeFrames` (lines 756-767): guard on the identifier
length, then remove every matching frame.  The raise happens before the
splice loop, so on the error branch the frame list is untouched. -/
def removeFrames (ident : String) (fs : List Frame) : Except TagError (List Frame) :=
  if ident.length ≠ 4 then .error .argumentOutOfRange
  else .ok (removeFramesImpl ident fs)

/-- `Id3v2Tag.setTextFrame` (lines 923-954): guard on the identifier
length; when every provided string is falsy, remove all matching frames;
otherwise store the text in the URL or text frame with this identifier.
The two collaborator classes (`UrlLinkFrame.get` and
`TextInformationFrame.getTextInformationFrame`, both with create = true)
are modelled alike, from the spec, as first-matching-frame-or-append; the
multi-value join is a model of the external text frame and no claim depends
on it. -/
def setTextFrame (ident : String) (texts : List String) (fs : List Frame) :
    Except TagError (List Frame) :=
  if ident.length ≠ 4 then .error .argumentOutOfRange
  else if texts.all (fun t => t == "") then .ok (removeFramesImpl ident fs)
  else
    match fs.find? (fun f => f.frameId == ident) with
    | some _ => .ok (setFirstText ident (String.intercalate ";" texts) fs)
    | none => .ok (fs ++ [⟨ident, 0, 0, 0, String.intercalate ";" texts⟩])

/-- The `padStart(minPlaces, "0")` call of `setNumberFrame` (line 910). -/
def padStartZeros (s : String) (n : Nat) : String :=
  String.mk (List.replicate (n - s.length) '0') ++ s

/-- `Id3v2Tag.setNumberFrame` (lines 898-915): the numeric guards run first
(`Guards.uint` always holds for `Nat`; `Guards.byte` bounds `minPlaces`),
then the identifier-length guard, then remove / store
`numerator/denominator` / store `numerator`. -/
def setNumberFrame (ident : String) (numerator denominator minPlaces : Nat)
    (fs : List Frame) : Except TagError (List Frame) :=
  if minPlaces > 255 then .error .rangeError
  else if ident.length ≠ 4 then .error .argumentOutOfRange
  else if numerator = 0 ∧ denominator = 0 then removeFrames ident fs
  else if denominator ≠ 0 then
    setTextFrame ident
      [padStartZeros (toString numerator) minPlaces ++ "/" ++ toString denominator] fs
  else setTextFrame ident [toString numerator] fs

/-- Claim C10: each of `getFramesByIdentifier`, `removeFrames`,
`setTextFrame` and `setNumberFrame` raises on an identifier whose length is
not 4, with the length check preceding any mutation (the error result
carries no modified list — the frame list is unchanged); and for a 4-byte
identifier `removeFrames` removes exactly the frames whose id equals the
identifier, preserving the relative order (a sublist) and the multiplicity
of the remaining frames. -/
theorem frame_ops_identifier_guard :
    (∀ ident : String, ident.length ≠ 4 → ∀ (ct : Nat) (fs : List Frame)
        (texts : List String) (num den mp : Nat),
      getFramesByIdentifier ct ident fs = .error .argumentOutOfRange ∧
      removeFrames ident fs = .error .argumentOutOfRange ∧
      setTextFrame ident texts fs = .error .argumentOutOfRange ∧
      (setNumberFrame ident num den mp fs).isOk = false) ∧
    (∀ (ident : String) (fs : List Frame), ident.length = 4 →
      removeFrames ident fs = .ok (fs.filter fun f => f.frameId != ident) ∧
      (fs.filter fun f => f.frameId != ident).Sublist fs ∧
      (∀ f : Frame, f ∈ (fs.filter fun g => g.frameId != ident) ↔
        f ∈ fs ∧ f.frameId ≠ ident) ∧
      (∀ f : Frame, f.frameId ≠ ident →
        (fs.filter fun g => g.frameId != ident).count f = fs.count f)) := by
  constructor
  · intro ident h ct fs texts num den mp
    refine ⟨?_, ?_, ?_, ?_⟩
    · simp [getFramesByIdentifier, h]
    · simp [removeFrames, h]
    · simp [setTextFrame, h]
    · unfold setNumberFrame
      by_cases hmp : mp > 255
      · rw [if_pos hmp]
        rfl
      · rw [if_neg hmp, if_pos h]
        rfl
  · intro ident fs h4
    refine ⟨?_, List.filter_sublist fs, ?_, ?_⟩
    · simp [removeFrames, removeFramesImpl, h4]
    · intro f
      simp [List.mem_filter]
    · intro f hf
      exact List.count_filter (by simpa using hf)

/-- A concrete frame list for the claim C10 witness. -/
def c10fs : List Frame :=
  [⟨"TRCK", 0, 3, 0, "1"⟩, ⟨"TIT2", 0, 3, 0, "t"⟩, ⟨"TRCK", 0, 3, 0, "2"⟩]

theorem frame_ops_identifier_guard_witness :
    getFramesByIdentifier 0 "TRCKX" c10fs = .error .argumentOutOfRange ∧
    removeFrames "TRCKX" c10fs = .error .argumentOutOfRange ∧
    setTextFrame "TRCKX" ["9"] c10fs = .error .argumentOutOfRange ∧
    (setNumberFrame "TRCKX" 3 0 1 c10fs).isOk = false ∧
    removeFrames "TRCK" c10fs = .ok (c10fs.filter fun f => f.frameId != "TRCK") :=
  have h1 := frame_ops_identifier_guard.1 "TRCKX" (by decide) 0 c10fs ["9"] 3 0 1
  have h2 := frame_ops_identifier_guard.2 "TRCK" c10fs (by decide)
  ⟨h1.1, h1.2.1, h1.2.2.1, h1.2.2.2, h2.1⟩

end Id3v2
